import Mathlib

/-
Verification of the `number-search-backend` repository (src/app.py) against its
natural-language specification.

The Python source is embedded shallowly:
  * strings are Lean `String`s (Python `str` indexing/length count code points,
    matching Lean's `Char`-based view used here);
  * the regexes are special-cased deterministic matchers (for the two concrete
    regexes in the source, greedy backtracking semantics coincide with the
    deterministic maximal-munch matchers defined below, because the character
    classes of adjacent regex pieces are disjoint);
  * Python `re`'s `\D` / `[A-Z]` / `[a-z]` / `\s` classes are modelled on the
    ASCII range, where they coincide with the definitions below (all strings the
    program manipulates here are ASCII);
  * network I/O (`requests.post` / `requests.get`) and the BeautifulSoup DOM are
    abstracted into an environment `Env` supplying, per URL/query, either the
    parsed payload, a caught-request-error (the `except` branches inside
    `ddg_search_html` / `fetch_meta_image_and_title` that return an error dict),
    or an uncaught exception (anything else raised while processing a platform,
    which is caught by the `try/except` in the `/search` handler).

Note: line 81 of src/app.py (`strip=True')`) carries a stray quote character; the
embedding follows the evident intent (`strip=True`), i.e. the page text is taken
as-is and truncated to 800 characters.
-/

namespace NumberSearch

/-! ## Character classes (ASCII fragments of the Python regex classes) -/

/-- ASCII decimal digit: the complement of `\D` in `re.sub(r'\D', '', raw)`. -/
def isDigitChar (c : Char) : Bool := '0' ≤ c && c ≤ '9'

/-- The regex class `[A-Z]`. -/
def isUpperChar (c : Char) : Bool := 'A' ≤ c && c ≤ 'Z'

/-- The regex class `[a-z]`. -/
def isLowerChar (c : Char) : Bool := 'a' ≤ c && c ≤ 'z'

/-- The regex class `\s` (ASCII part): space, tab, newline, carriage return,
vertical tab, form feed. -/
def isSpaceChar (c : Char) : Bool :=
  c = ' ' || c = '\t' || c = '\n' || c = '\r' || c = '\x0b' || c = '\x0c'

/-- Python truthiness of an optional string (`None` and `''` are falsy). -/
def pyTruthy : Option String → Bool
  | none => false
  | some s => s ≠ ""

/-! ## `normalize_number` (src/app.py lines 29-34)

```python
def normalize_number(raw: str) -> str:
    if not raw: return ''
    digits = re.sub(r'\D', '', raw)
    if len(digits) == 10:
        digits = '91' + digits
    return digits
```
-/

def normalize_number (raw : String) : String :=
  if raw = "" then ""
  else
    let digits := raw.toList.filter isDigitChar
    if digits.length = 10 then "91" ++ String.mk digits else String.mk digits

/-! ## Helper lemmas about strings -/

theorem string_mk_toList (s : String) : String.mk s.toList = s := by
  cases s
  rfl

theorem string_toList_mk (l : List Char) : (String.mk l).toList = l := rfl

/-- Unfolding of `normalize_number` on non-empty input. -/
theorem normalize_number_def (s : String) (h : s ≠ "") :
    normalize_number s =
      if (s.toList.filter isDigitChar).length = 10
      then "91" ++ String.mk (s.toList.filter isDigitChar)
      else String.mk (s.toList.filter isDigitChar) := by
  simp only [normalize_number, if_neg h]

/-! ## Claim C1 -/

/-- C1: `normalize_number` strips all non-digit characters from its input, and
prepends the fixed country-code prefix `"91"` exactly when 10 digits remain; in
particular on a string of 10 digit characters it returns that string with `"91"`
prepended. -/
theorem normalize_number_strips_and_prefixes :
    (∀ s : String,
      normalize_number s =
        (if (s.toList.filter isDigitChar).length = 10
         then "91" ++ String.mk (s.toList.filter isDigitChar)
         else String.mk (s.toList.filter isDigitChar))) ∧
    (∀ t : String, (∀ c ∈ t.toList, isDigitChar c) → t.toList.length = 10 →
      normalize_number t = "91" ++ t) := by
  constructor
  · intro s
    by_cases hs : s = ""
    · subst hs
      rfl
    · exact normalize_number_def s hs
  · intro t hall hlen
    have hne : t ≠ "" := by
      intro h
      subst h
      simp at hlen
    have hfilter : t.toList.filter isDigitChar = t.toList :=
      List.filter_eq_self.mpr hall
    rw [normalize_number_def t hne, hfilter, if_pos hlen, string_mk_toList]

theorem normalize_number_strips_and_prefixes_witness :
    normalize_number "9876543210" = "91" ++ "9876543210" :=
  normalize_number_strips_and_prefixes.2 "9876543210" (by decide) (by decide)

/-! ## Claim C2 -/

/-- C2: `normalize_number` returns the empty string on the empty input and on any
input containing no digit characters. -/
theorem normalize_number_empty_on_no_digits :
    normalize_number "" = "" ∧
    (∀ s : String, (∀ c ∈ s.toList, isDigitChar c = false) →
      normalize_number s = "") := by
  constructor
  · rfl
  · intro s hnone
    by_cases hs : s = ""
    · subst hs
      rfl
    · have hfilter : s.toList.filter isDigitChar = [] := by
        rw [List.filter_eq_nil_iff]
        intro c hc
        simp [hnone c hc]
      rw [normalize_number_def s hs, hfilter]
      rfl

theorem normalize_number_empty_on_no_digits_witness :
    normalize_number "abc-def" = "" :=
  normalize_number_empty_on_no_digits.2 "abc-def" (by decide)

/-! ## Claim C7 -/

/-- C7: when the digit-only form of the input has 12 digits (the already-prefixed
shape), `normalize_number` returns that 12-digit string unchanged, and the result
is a fixed point of `normalize_number`. -/
theorem normalize_number_twelve_digits_fixed (s : String)
    (h12 : (s.toList.filter isDigitChar).length = 12) :
    normalize_number s = String.mk (s.toList.filter isDigitChar) ∧
    normalize_number (normalize_number s) = normalize_number s := by
  have hne : s ≠ "" := by
    intro h
    subst h
    simp at h12
  have hnot10 : (s.toList.filter isDigitChar).length ≠ 10 := by
    rw [h12]
    decide
  have hval : normalize_number s = String.mk (s.toList.filter isDigitChar) := by
    rw [normalize_number_def s hne, if_neg hnot10]
  refine ⟨hval, ?_⟩
  rw [hval]
  have hall : ∀ c ∈ s.toList.filter isDigitChar, isDigitChar c := by
    intro c hc
    exact List.of_mem_filter hc
  have hmkne : String.mk (s.toList.filter isDigitChar) ≠ "" := by
    intro h
    have h2 : (String.mk (s.toList.filter isDigitChar)).toList = ([] : List Char) := by
      rw [h]
      rfl
    rw [string_toList_mk] at h2
    rw [h2] at h12
    simp at h12
  have hfilter : (String.mk (s.toList.filter isDigitChar)).toList.filter isDigitChar
      = s.toList.filter isDigitChar := by
    rw [string_toList_mk]
    exact List.filter_eq_self.mpr hall
  rw [normalize_number_def _ hmkne, hfilter, if_neg hnot10]

theorem normalize_number_twelve_digits_fixed_witness :
    normalize_number "+91 9876543210" = String.mk ("+91 9876543210".toList.filter isDigitChar) ∧
    normalize_number (normalize_number "+91 9876543210") = normalize_number "+91 9876543210" :=
  normalize_number_twelve_digits_fixed "+91 9876543210" (by decide)

/-! ## The name regex `NAME_RE` (src/app.py line 27) and `extract_name_from_text`
(src/app.py lines 84-87)

```python
NAME_RE = re.compile(r'([A-Z][a-z]{2,}(?:\s[A-Z][a-z]{2,}){0,3})')

def extract_name_from_text(text: str):
    if not text: return None
    m = NAME_RE.search(text)
    return m.group(1) if m else None
```

`re.search` returns the leftmost match; within a match, each quantifier is
greedy.  For this particular pattern the greedy backtracking search is
equivalent to the deterministic matcher below: `[a-z]{2,}` always ends at the
first non-lowercase character (giving characters back cannot help, because the
continuation starts with `\s` or the end of the pattern, and a lowercase letter
is never `\s`), and each optional `(?:\s[A-Z][a-z]{2,})` repetition either
matches wholly at the maximal-munch frontier or the repetition stops. -/

/-- Match `[A-Z][a-z]{2,}` at the head of the input; return the consumed
characters and the rest. -/
def matchWord : List Char → Option (List Char × List Char)
  | [] => none
  | c :: rest =>
    if isUpperChar c then
      let lows := rest.takeWhile isLowerChar
      if 2 ≤ lows.length then some (c :: lows, rest.drop lows.length)
      else none
    else none

/-- Match `(?:\s[A-Z][a-z]{2,}){0,n}` greedily at the head of the input. -/
def matchMore : Nat → List Char → List Char × List Char
  | 0, cs => ([], cs)
  | n + 1, cs =>
    match cs with
    | [] => ([], cs)
    | c :: rest =>
      if isSpaceChar c then
        match matchWord rest with
        | some (w, rest2) =>
          let p := matchMore n rest2
          (c :: (w ++ p.1), p.2)
        | none => ([], cs)
      else ([], cs)

/-- Match the whole `NAME_RE` pattern anchored at the head of the input. -/
def matchAt (cs : List Char) : Option (List Char) :=
  match matchWord cs with
  | some (w, rest) => some (w ++ (matchMore 3 rest).1)
  | none => none

/-- `re.search` for `NAME_RE`: try each start position left to right. -/
def nameSearch : List Char → Option (List Char)
  | [] => none
  | c :: rest =>
    match matchAt (c :: rest) with
    | some m => some m
    | none => nameSearch rest

def extract_name_from_text (text : String) : Option String :=
  if text = "" then none
  else (nameSearch text.toList).map String.mk

/-- `capRunAt cs` holds when `cs` starts with an uppercase letter followed by at
least two lowercase letters. -/
def capRunAt : List Char → Bool
  | u :: l1 :: l2 :: _ => isUpperChar u && isLowerChar l1 && isLowerChar l2
  | _ => false

/-- `hasCapRun cs` holds when some position of `cs` starts an uppercase letter
followed by at least two lowercase letters (a "capitalized run of at least three
letters"). -/
def hasCapRun : List Char → Bool
  | [] => false
  | c :: rest => capRunAt (c :: rest) || hasCapRun rest

/-! Lemmas connecting the matcher to `hasCapRun`. -/

theorem takeWhile_two {p : Char → Bool} {l : List Char}
    (h : 2 ≤ (l.takeWhile p).length) :
    ∃ a b t, l = a :: b :: t ∧ p a = true ∧ p b = true := by
  match l with
  | [] => simp [List.takeWhile_nil] at h
  | a :: rest =>
    by_cases ha : p a
    · match rest with
      | [] =>
        simp only [List.takeWhile_cons, if_pos ha, List.takeWhile_nil,
          List.length_cons, List.length_nil] at h
        omega
      | b :: t =>
        by_cases hb : p b
        · exact ⟨a, b, t, rfl, ha, hb⟩
        · simp only [List.takeWhile_cons, if_pos ha, if_neg hb,
            List.length_cons, List.length_nil] at h
          omega
    · simp only [List.takeWhile_cons, if_neg ha, List.length_nil] at h
      omega

theorem matchWord_some {cs w rest : List Char}
    (h : matchWord cs = some (w, rest)) : capRunAt cs = true := by
  match cs with
  | [] => simp [matchWord] at h
  | c :: tail =>
    simp only [matchWord] at h
    by_cases hu : isUpperChar c
    · rw [if_pos hu] at h
      by_cases hl : 2 ≤ (tail.takeWhile isLowerChar).length
      · obtain ⟨a, b, t, ht, ha, hb⟩ := takeWhile_two hl
        subst ht
        simp [capRunAt, hu, ha, hb]
      · rw [if_neg hl] at h
        exact absurd h (by simp)
    · rw [if_neg hu] at h
      exact absurd h (by simp)

theorem matchAt_some {cs m : List Char} (h : matchAt cs = some m) :
    capRunAt cs = true := by
  unfold matchAt at h
  match hw : matchWord cs with
  | some (w, rest) => exact matchWord_some hw
  | none => rw [hw] at h; simp at h

theorem nameSearch_some {cs m : List Char} (h : nameSearch cs = some m) :
    hasCapRun cs = true := by
  induction cs with
  | nil => simp [nameSearch] at h
  | cons c rest ih =>
    unfold nameSearch at h
    match hA : matchAt (c :: rest) with
    | some m' =>
      have := matchAt_some hA
      simp [hasCapRun, this]
    | none =>
      rw [hA] at h
      have := ih h
      simp [hasCapRun, this]

/-! ## Claim C3 (corrected) -/

/-- Counterexample to C3 as stated: on `"Contact John Smith today"` the
leftmost-greedy match of `NAME_RE` starts at `"Contact"`, so
`extract_name_from_text` returns `"Contact John Smith"`, not `"John Smith"`. -/
theorem extract_name_contact_counterexample :
    extract_name_from_text "Contact John Smith today" = some "Contact John Smith" ∧
    some "Contact John Smith" ≠ some "John Smith" := by
  constructor
  · decide
  · decide

/-- C3 (amended): `extract_name_from_text "Contact John Smith today"` yields
`"Contact John Smith"` (the leftmost greedy match begins at `"Contact"`); and on
any text containing no uppercase letter followed by at least two lowercase
letters, `extract_name_from_text` yields `none`. -/
theorem extract_name_first_match :
    extract_name_from_text "Contact John Smith today" = some "Contact John Smith" ∧
    (∀ text : String, hasCapRun text.toList = false →
      extract_name_from_text text = none) := by
  constructor
  · decide
  · intro text hno
    unfold extract_name_from_text
    by_cases ht : text = ""
    · rw [if_pos ht]
    · rw [if_neg ht]
      match hs : nameSearch text.toList with
      | none => rfl
      | some m =>
        have := nameSearch_some hs
        rw [this] at hno
        exact absurd hno (by simp)

theorem extract_name_first_match_witness :
    extract_name_from_text "no name here 42" = none :=
  extract_name_first_match.2 "no name here 42" (by decide)

/-! ## Outbound fetches as an environment

An outbound request either yields a payload (`ok`), raises inside the
`try` of `ddg_search_html` / `fetch_meta_image_and_title` and is turned into an
error dict (`err`, carrying the text of the exception), or raises outside those
`try` blocks (`exn`), to be caught by the `try/except` of the `/search`
handler. -/

inductive FetchOutcome (α : Type) where
  | ok : α → FetchOutcome α
  | err : String → FetchOutcome α
  | exn : String → FetchOutcome α
deriving DecidableEq

/-- One `<a>` element of the fetched DuckDuckGo HTML, as seen through
BeautifulSoup in `ddg_search_html`: its `href` attribute (absent = `none`), its
`get_text` text, and the `get_text` of its parent element (`none` when
`find_parent()` returns nothing). -/
structure Anchor where
  href : Option String
  text : String
  parentText : Option String
deriving DecidableEq

/-- One search-result dict `{title, href, snippet}` built by `ddg_search_html`. -/
structure DdgResult where
  title : String
  href : String
  snippet : String
deriving DecidableEq

/-- The dict returned by `fetch_meta_image_and_title` on success:
`{title, image, text}` (og:title / og:image / page text). -/
structure Meta where
  title : Option String
  image : Option String
  text : String
deriving DecidableEq

/-- The abstracted network/DOM: what each DuckDuckGo query and each page URL
returns. -/
structure Env where
  ddgFetch : String → FetchOutcome (List Anchor)
  pageFetch : String → FetchOutcome Meta

/-! ## String helpers for the snippet computation (src/app.py lines 54-58)

`snippet = s.replace(title, '').strip()[:300]` -/

/-- Python `str.replace`, on character lists: replace every non-overlapping
occurrence of `pat`, scanning left to right.  (The only call site passes the
anchor title, which is non-empty there, so the empty-pattern behaviour of
Python's `replace` never arises; on an empty `pat` this function returns the
input unchanged.) -/
def pyReplaceAux (pat rep : List Char) : List Char → List Char
  | [] => []
  | c :: rest =>
    if pat ≠ [] ∧ pat.isPrefixOf (c :: rest) then
      rep ++ pyReplaceAux pat rep (rest.drop (pat.length - 1))
    else
      c :: pyReplaceAux pat rep rest
termination_by cs => cs.length
decreasing_by
  · simp only [List.length_drop, List.length_cons]
    omega
  · simp only [List.length_cons]
    omega

def pyReplace (s pat rep : String) : String :=
  String.mk (pyReplaceAux pat.toList rep.toList s.toList)

/-- Python `str.strip` (ASCII whitespace). -/
def pyStrip (s : String) : String :=
  String.mk (((s.toList.dropWhile isSpaceChar).reverse.dropWhile isSpaceChar).reverse)

/-! ## `ddg_search_html` (src/app.py lines 36-62) -/

/-- The snippet computed for an anchor: the parent's text with the title removed,
stripped, truncated to 300 characters; `''` when the anchor has no parent. -/
def anchorSnippet (a : Anchor) : String :=
  match a.parentText with
  | none => ""
  | some s => String.mk ((pyStrip (pyReplace s a.text "")).toList.take 300)

/-- The result-collection loop of `ddg_search_html`: skip anchors with a missing
or empty `href` or an empty title, append a result dict for the rest, and stop
once 8 results have been collected. -/
def collectAnchors : List Anchor → List DdgResult → List DdgResult
  | [], acc => acc
  | a :: rest, acc =>
    match a.href with
    | none => collectAnchors rest acc
    | some h =>
      if h = "" ∨ a.text = "" then collectAnchors rest acc
      else
        let acc2 := acc ++ [⟨a.text, h, anchorSnippet a⟩]
        if 8 ≤ acc2.length then acc2 else collectAnchors rest acc2

def ddg_search_html (env : Env) (query : String) : FetchOutcome (List DdgResult) :=
  match env.ddgFetch query with
  | .ok anchors => .ok (collectAnchors anchors [])
  | .err e => .err ("duckduckgo search failed: " ++ e)
  | .exn e => .exn e

/-! ## `fetch_meta_image_and_title` (src/app.py lines 64-82)

The og:title / og:image resolution over the DOM is abstracted into the
environment; the function truncates the page text to 800 characters. -/

def fetch_meta_image_and_title (env : Env) (url : String) : FetchOutcome Meta :=
  match env.pageFetch url with
  | .ok m => .ok { title := m.title, image := m.image, text := String.mk (m.text.toList.take 800) }
  | .err e => .err ("fetch failed: " ++ e)
  | .exn e => .exn e

/-! ## The `/search` handler (src/app.py lines 93-158) -/

inductive PlatformKind where
  | ddg
  | direct
deriving DecidableEq

/-- One platform descriptor; `query` holds the `query` field for `ddg`
descriptors and the `url` field for `direct` ones. -/
structure Platform where
  platform : String
  kind : PlatformKind
  query : String
deriving DecidableEq

/-- The fixed platform list (src/app.py lines 103-110). -/
def platforms (number : String) : List Platform :=
  [ { platform := "DuckDuckGo (exact)", kind := .ddg,
      query := "\"" ++ number ++ "\"" },
    { platform := "PhonePe (DDG)", kind := .ddg,
      query := "\"" ++ number ++ "\" PhonePe" },
    { platform := "WhoCallsMe (site search)", kind := .ddg,
      query := "site:whocallsme.com \"" ++ number ++ "\"" },
    { platform := "SpamCalls (site search)", kind := .ddg,
      query := "site:spamcalls.net \"" ++ number ++ "\"" },
    { platform := "Truecaller (direct)", kind := .direct,
      query := "https://www.truecaller.com/search/in/" ++ number },
    { platform := "Google (DDG fallback)", kind := .ddg,
      query := "\"" ++ number ++ "\" Google" } ]

/-- One per-platform result entry. -/
structure Entry where
  platform : String
  name : Option String
  photo : Option String
  notes : Option String
deriving DecidableEq

/-- The text scanned for a name in the ddg branch:
`(r.get('snippet') or '') + ' ' + (r.get('title') or '')`. -/
def ddgEntryText (r : DdgResult) : String := r.snippet ++ " " ++ r.title

/-- The first result whose snippet/title text yields a (truthy) name. -/
def findNamed : List DdgResult → Option DdgResult
  | [] => none
  | r :: rest =>
    if pyTruthy (extract_name_from_text (ddgEntryText r)) then some r
    else findNamed rest

/-- Processing of one platform inside the loop of the `/search` handler
(src/app.py lines 113-156), including the `try/except` that converts any
uncaught exception into a note on the partially built entry. -/
def processPlatform (env : Env) (p : Platform) : Entry :=
  let e0 : Entry := { platform := p.platform, name := none, photo := none, notes := none }
  match p.kind with
  | .ddg =>
    match ddg_search_html env p.query with
    | .exn e => { e0 with notes := some ("error: " ++ e) }
    | .err msg => { e0 with notes := some msg }
    | .ok res =>
      match findNamed res with
      | some r =>
        let e1 := { e0 with name := extract_name_from_text (ddgEntryText r) }
        match fetch_meta_image_and_title env r.href with
        | .exn e => { e1 with notes := some ("error: " ++ e) }
        | .err _ => { e1 with notes := some r.href }
        | .ok meta =>
          let e2 := if pyTruthy meta.image then { e1 with photo := meta.image } else e1
          { e2 with notes := some r.href }
      | none =>
        match res with
        | [] => e0
        | r0 :: _ => { e0 with notes := some r0.href }
  | .direct =>
    match fetch_meta_image_and_title env p.query with
    | .exn e => { e0 with notes := some ("error: " ++ e) }
    | .err msg => { e0 with notes := some msg }
    | .ok meta =>
      let e1 := { e0 with notes := some p.query }
      let nmT := extract_name_from_text (meta.title.getD "")
      let e2 := if pyTruthy meta.title then
          (if pyTruthy nmT then { e1 with name := nmT } else e1)
        else e1
      let nmX := extract_name_from_text meta.text
      let e3 := if !pyTruthy e2.name && meta.text != "" then
          (if pyTruthy nmX then { e2 with name := nmX } else e2)
        else e2
      { e3 with photo := meta.image }

/-- The JSON response of the `GET /search` handler (absent fields are `none`). -/
structure Response where
  status : Nat
  error : Option String
  queried : Option String
  normalized : Option String
  results : Option (List Entry)

def search (env : Env) (numberParam : Option String) : Response :=
  let raw := numberParam.getD ""
  if raw = "" then
    { status := 400,
      error := some "missing number parameter, e.g. /search?number=919876543210",
      queried := none, normalized := none, results := none }
  else
    let number := normalize_number raw
    if number = "" then
      { status := 400, error := some "invalid number",
        queried := none, normalized := none, results := none }
    else
      { status := 200, error := none, queried := some raw, normalized := some number,
        results := some ((platforms number).map (processPlatform env)) }

/-! Unfolding lemmas for the three branches of `search`. -/

theorem search_eq_missing (env : Env) (p : Option String) (h : p.getD "" = "") :
    search env p =
      { status := 400,
        error := some "missing number parameter, e.g. /search?number=919876543210",
        queried := none, normalized := none, results := none } := by
  simp only [search, h, if_pos]

theorem search_eq_invalid (env : Env) (p : Option String) (h : p.getD "" ≠ "")
    (h2 : normalize_number (p.getD "") = "") :
    search env p =
      { status := 400, error := some "invalid number",
        queried := none, normalized := none, results := none } := by
  simp only [search]
  rw [if_neg h, if_pos h2]

theorem search_eq_ok (env : Env) (p : Option String) (h : p.getD "" ≠ "")
    (h2 : normalize_number (p.getD "") ≠ "") :
    search env p =
      { status := 200, error := none, queried := some (p.getD ""),
        normalized := some (normalize_number (p.getD "")),
        results := some ((platforms (normalize_number (p.getD ""))).map
          (processPlatform env)) } := by
  simp only [search]
  rw [if_neg h, if_neg h2]

/-- The `platform` field of an entry is the descriptor's display name in every
branch of the per-platform processing. -/
theorem processPlatform_platform (env : Env) (p : Platform) :
    (processPlatform env p).platform = p.platform := by
  obtain ⟨nm, k, q⟩ := p
  cases k <;> simp only [processPlatform] <;> (repeat' split) <;> rfl

/-- A concrete fully-offline environment: every outbound request raises a
(caught) request error. -/
def offlineEnv : Env :=
  { ddgFetch := fun _ => .err "offline", pageFetch := fun _ => .err "offline" }

/-! ## Claim C4 -/

/-- C4: for any network behaviour, `GET /search?number=9876543210` answers 200
with `normalized = "919876543210"` and a results array of length 6, the length
of the fixed platform list. -/
theorem search_valid_number_response (env : Env) :
    (search env (some "9876543210")).status = 200 ∧
    (search env (some "9876543210")).normalized = some "919876543210" ∧
    (search env (some "9876543210")).results.map List.length = some 6 ∧
    (platforms "919876543210").length = 6 := by
  have h : search env (some "9876543210") =
      { status := 200, error := none, queried := some "9876543210",
        normalized := some (normalize_number "9876543210"),
        results := some ((platforms (normalize_number "9876543210")).map
          (processPlatform env)) } :=
    search_eq_ok env (some "9876543210") (by decide) (by decide)
  have hn : normalize_number "9876543210" = "919876543210" := by decide
  rw [hn] at h
  refine ⟨by rw [h], by rw [h], ?_, rfl⟩
  rw [h]
  simp only [Option.map_some, List.length_map]
  rfl

/-! ## Claim C5 -/

/-- C5: a missing `number` parameter, or a `number` that normalizes to the empty
string, yields a 400 response carrying an error string; otherwise the handler
answers 200 with the `queried`, `normalized` and `results` fields. -/
theorem search_input_validation (env : Env) (p : Option String) :
    (p = none → (search env p).status = 400 ∧ (search env p).error.isSome = true) ∧
    (∀ s : String, p = some s → normalize_number s = "" →
      (search env p).status = 400 ∧ (search env p).error.isSome = true) ∧
    (∀ s : String, p = some s → normalize_number s ≠ "" →
      (search env p).status = 200 ∧ (search env p).queried = some s ∧
      (search env p).normalized = some (normalize_number s) ∧
      (search env p).results.isSome = true) := by
  refine ⟨?_, ?_, ?_⟩
  · intro hp
    subst hp
    rw [search_eq_missing env none rfl]
    exact ⟨rfl, rfl⟩
  · intro s hp hz
    subst hp
    by_cases hs : s = ""
    · subst hs
      rw [search_eq_missing env (some "") rfl]
      exact ⟨rfl, rfl⟩
    · rw [search_eq_invalid env (some s) hs hz]
      exact ⟨rfl, rfl⟩
  · intro s hp hz
    subst hp
    have hs : s ≠ "" := by
      intro h
      subst h
      exact hz rfl
    rw [search_eq_ok env (some s) hs hz]
    exact ⟨rfl, rfl, rfl, rfl⟩

theorem search_input_validation_witness :
    (search offlineEnv (some "abc")).status = 400 ∧
    (search offlineEnv (some "abc")).error.isSome = true :=
  (search_input_validation offlineEnv (some "abc")).2.1 "abc" rfl (by decide)

/-! ## Claim C6 -/

/-- `primaryFetchFails env p` holds when the platform's own outbound fetch (the
DuckDuckGo POST for `ddg` descriptors, the page GET for `direct` ones) either
returns a caught request error or raises. -/
def primaryFetchFails (env : Env) (p : Platform) : Prop :=
  match p.kind with
  | .ddg => (∃ m, env.ddgFetch p.query = .err m) ∨ (∃ m, env.ddgFetch p.query = .exn m)
  | .direct => (∃ m, env.pageFetch p.query = .err m) ∨ (∃ m, env.pageFetch p.query = .exn m)

/-- C6: a platform whose fetch fails (caught request error or uncaught
exception) still yields a result entry for that platform, with the failure
recorded in its `notes`; and no platform error is fatal: for every valid input
the handler answers 200 with one entry per platform, whatever the network
does. -/
theorem platform_failure_not_fatal (env : Env) :
    (∀ p : Platform, primaryFetchFails env p →
      (processPlatform env p).notes.isSome = true ∧
      (processPlatform env p).platform = p.platform) ∧
    (∀ s : String, s ≠ "" → normalize_number s ≠ "" →
      (search env (some s)).status = 200 ∧
      (search env (some s)).results =
        some ((platforms (normalize_number s)).map (processPlatform env))) := by
  constructor
  · intro p hf
    refine ⟨?_, processPlatform_platform env p⟩
    obtain ⟨nm, k, q⟩ := p
    cases k
    · simp only [primaryFetchFails] at hf
      rcases hf with ⟨m, hm⟩ | ⟨m, hm⟩ <;>
        simp [processPlatform, ddg_search_html, hm]
    · simp only [primaryFetchFails] at hf
      rcases hf with ⟨m, hm⟩ | ⟨m, hm⟩ <;>
        simp [processPlatform, fetch_meta_image_and_title, hm]
  · intro s h1 h2
    rw [search_eq_ok env (some s) h1 h2]
    exact ⟨rfl, rfl⟩

theorem platform_failure_not_fatal_witness :
    ((processPlatform offlineEnv
        { platform := "DuckDuckGo (exact)", kind := .ddg,
          query := "\"919876543210\"" }).notes.isSome = true ∧
      (processPlatform offlineEnv
        { platform := "DuckDuckGo (exact)", kind := .ddg,
          query := "\"919876543210\"" }).platform = "DuckDuckGo (exact)") ∧
    (search offlineEnv (some "9876543210")).status = 200 ∧
    (search offlineEnv (some "9876543210")).results =
      some ((platforms (normalize_number "9876543210")).map
        (processPlatform offlineEnv)) :=
  ⟨(platform_failure_not_fatal offlineEnv).1 _ (Or.inl ⟨"offline", rfl⟩),
    (platform_failure_not_fatal offlineEnv).2 "9876543210" (by decide) (by decide)⟩

/-! ## Claim C8 -/

/-- C8: on every successful request the results list has one entry per platform
descriptor, in order: the i-th entry carries the platform name of the i-th
descriptor of the fixed list. -/
theorem search_results_preserve_order (env : Env) (s : String)
    (h1 : s ≠ "") (h2 : normalize_number s ≠ "") :
    ∃ l, (search env (some s)).results = some l ∧
      l.length = (platforms (normalize_number s)).length ∧
      ∀ (i : Nat) (hi : i < l.length) (hj : i < (platforms (normalize_number s)).length),
        (l.get ⟨i, hi⟩).platform =
          ((platforms (normalize_number s)).get ⟨i, hj⟩).platform := by
  refine ⟨(platforms (normalize_number s)).map (processPlatform env), ?_, ?_, ?_⟩
  · rw [search_eq_ok env (some s) h1 h2]
    rfl
  · exact List.length_map _ _
  · intro i hi hj
    rw [List.get_eq_getElem, List.get_eq_getElem, List.getElem_map]
    exact processPlatform_platform env _

theorem search_results_preserve_order_witness :
    ∃ l, (search offlineEnv (some "9876543210")).results = some l ∧
      l.length = (platforms (normalize_number "9876543210")).length ∧
      ∀ (i : Nat) (hi : i < l.length)
        (hj : i < (platforms (normalize_number "9876543210")).length),
        (l.get ⟨i, hi⟩).platform =
          ((platforms (normalize_number "9876543210")).get ⟨i, hj⟩).platform :=
  search_results_preserve_order offlineEnv "9876543210" (by decide) (by decide)

/-! ## Claim C10 -/

theorem collectAnchors_bound (as : List Anchor) (acc : List DdgResult)
    (hlen : acc.length < 8)
    (hacc : ∀ r ∈ acc, r.title ≠ "" ∧ r.href ≠ "") :
    (collectAnchors as acc).length ≤ 8 ∧
    ∀ r ∈ collectAnchors as acc, r.title ≠ "" ∧ r.href ≠ "" := by
  induction as generalizing acc with
  | nil =>
    simp only [collectAnchors]
    exact ⟨Nat.le_of_lt hlen, hacc⟩
  | cons a rest ih =>
    simp only [collectAnchors]
    split
    · exact ih acc hlen hacc
    · next h heq =>
      split
      · exact ih acc hlen hacc
      · next hskip =>
        push_neg at hskip
        have hnew : ∀ r ∈ acc ++ [(⟨a.text, h, anchorSnippet a⟩ : DdgResult)],
            r.title ≠ "" ∧ r.href ≠ "" := by
          intro r hr
          rcases List.mem_append.mp hr with hr | hr
          · exact hacc r hr
          · rcases List.mem_singleton.mp hr with rfl
            exact ⟨hskip.2, hskip.1⟩
        split
        · next hfull =>
          refine ⟨?_, hnew⟩
          have : (acc ++ [(⟨a.text, h, anchorSnippet a⟩ : DdgResult)]).length
              = acc.length + 1 := by simp
          omega
        · next hfull =>
          refine ih _ ?_ hnew
          have : (acc ++ [(⟨a.text, h, anchorSnippet a⟩ : DdgResult)]).length
              = acc.length + 1 := by simp
          omega

/-- C10: whenever the DuckDuckGo fetch succeeds, `ddg_search_html` returns a
list of at most 8 result records, each with a non-empty title and a non-empty
href. -/
theorem ddg_search_html_bounded (env : Env) (q : String) (anchors : List Anchor)
    (hfetch : env.ddgFetch q = .ok anchors) :
    ∃ l, ddg_search_html env q = .ok l ∧ l.length ≤ 8 ∧
      ∀ r ∈ l, r.title ≠ "" ∧ r.href ≠ "" := by
  refine ⟨collectAnchors anchors [], ?_, ?_, ?_⟩
  · simp [ddg_search_html, hfetch]
  · exact (collectAnchors_bound anchors [] (by decide) (by simp)).1
  · exact (collectAnchors_bound anchors [] (by decide) (by simp)).2

/-- A concrete anchor with both a href and a title. -/
def exampleAnchor : Anchor :=
  { href := some "https://example.com", text := "Example Result", parentText := none }

/-- A concrete environment whose DuckDuckGo fetch yields one valid anchor. -/
def oneAnchorEnv : Env :=
  { ddgFetch := fun _ => .ok [exampleAnchor], pageFetch := fun _ => .err "offline" }

theorem ddg_search_html_bounded_witness :
    ∃ l, ddg_search_html oneAnchorEnv "q" = .ok l ∧ l.length ≤ 8 ∧
      ∀ r ∈ l, r.title ≠ "" ∧ r.href ≠ "" :=
  ddg_search_html_bounded oneAnchorEnv "q" [exampleAnchor] (by rfl)

/-! ## Claim C9 (the second `/search` variant, not under src/) -/

structure PostResult where
  platform : String
  result : String

structure PostResponse where
  status : Nat
  error : Option String
  results : Option (List PostResult)

/-- Modelled from the spec: the repository's second, near-duplicate file (not
under src/) exposes `POST /search` taking a body with a `number` string and
returning, instead of performing fetches, a static list of three fixed-format
profile/search URL templates with the number substituted in.  The concrete
template strings live only in that missing file; three representative
fixed-format templates are used here. -/
def postPlatforms : List (String × String) :=
  [("Truecaller", "https://www.truecaller.com/search/in/"),
   ("Facebook", "https://www.facebook.com/search/top/?q="),
   ("WhatsApp", "https://wa.me/")]

/-- Modelled from the spec: the `POST /search` handler of the second variant:
an empty `number` yields 400 with an error; otherwise 200 with
`results = [(platform, constructed url)]` over the three fixed templates. -/
def search_post (number : String) : PostResponse :=
  if number = "" then
    { status := 400, error := some "number required", results := none }
  else
    { status := 200, error := none,
      results := some (postPlatforms.map
        (fun pl => { platform := pl.1, result := pl.2 ++ number })) }

/-- C9: `POST /search` with an empty number answers 400 with an error; with
`"919876543210"` it answers 200 with three statically constructed URLs, each
containing that number. -/
theorem search_post_contract :
    (search_post "").status = 400 ∧ (search_post "").error.isSome = true ∧
    (search_post "919876543210").status = 200 ∧
    ∃ l, (search_post "919876543210").results = some l ∧ l.length = 3 ∧
      ∀ r ∈ l, ∃ a b, r.result = a ++ "919876543210" ++ b := by
  refine ⟨rfl, rfl, rfl, ?_⟩
  refine ⟨_, rfl, rfl, ?_⟩
  intro r hr
  simp only [postPlatforms, List.map_cons, List.map_nil, List.mem_cons,
    List.not_mem_nil, or_false] at hr
  rcases hr with rfl | rfl | rfl
  · exact ⟨"https://www.truecaller.com/search/in/", "", by decide⟩
  · exact ⟨"https://www.facebook.com/search/top/?q=", "", by decide⟩
  · exact ⟨"https://wa.me/", "", by decide⟩

end NumberSearch
